import Mathlib

/-!
Verification of the standup-irc IRC bot (`app.js`) against its
natural-language specification.

The JavaScript source is shallowly embedded: every handler becomes a pure
Lean function from its inputs (plus an `Env` record holding the ambient
process state the handler reads) to a `JsResult` — the list of observable
side effects the handler performs, in order, together with an optional
synchronous JavaScript exception.  String operations of JavaScript
(`split(' ')`, `trim`, `toLowerCase`, `slice`, `parseInt`) are re-implemented
as structurally recursive functions over `String.data` so that concrete
instances evaluate by `decide` / `rfl`.

Modelling notes kept throughout:
* IRC messages never contain line terminators, so the JavaScript regular
  expression `^nick[:,]\s*?(.*)$` (with the nickname regex-escaped) matches a
  message exactly when the message starts with the literal nickname followed
  by a colon or comma; the lazy `\s*?` contributes nothing because `(.*)`
  absorbs the rest, which the code then trims.
* JavaScript `trim`/`toLowerCase` are modelled on the ASCII whitespace and
  letters that can actually occur in the strings involved.
* Numbers are modelled as `Int`/`Nat`; the status ids involved are far below
  the 2^53 precision limit of JavaScript numbers.
-/

/-! ## JavaScript-style string primitives -/

/-- Drop `p` as a literal prefix of `s`; `some` of the remainder on success. -/
def dropPrefixCh : List Char → List Char → Option (List Char)
  | [], s => some s
  | _ :: _, [] => none
  | p :: ps, c :: cs => if p = c then dropPrefixCh ps cs else none

/-- JavaScript `s.startsWith(p)` (equivalently, an anchored literal regex match). -/
def jsStartsWith (p s : String) : Bool := (dropPrefixCh p.data s.data).isSome

/-- Drop the first `n` characters of a string (JavaScript `s.slice(n)` for ASCII data). -/
def jsDropChars (n : Nat) (s : String) : String := ⟨s.data.drop n⟩

/-- JavaScript `s.trim()` restricted to the ASCII whitespace characters
(space, tab, CR, LF) that occur in IRC traffic. -/
def jsTrim (s : String) : String :=
  ⟨((s.data.dropWhile Char.isWhitespace).reverse.dropWhile Char.isWhitespace).reverse⟩

/-- JavaScript `s.toLowerCase()` on ASCII data. -/
def jsToLower (s : String) : String := ⟨s.data.map Char.toLower⟩

/-- JavaScript `s.split(' ')` on the character list: split at every single
space, keeping empty fragments, with `[""]` for the empty string. -/
def splitCharsSpace : List Char → List (List Char)
  | [] => [[]]
  | c :: cs =>
    if c = ' ' then [] :: splitCharsSpace cs
    else
      match splitCharsSpace cs with
      | [] => [[c]]
      | g :: gs => (c :: g) :: gs

/-- JavaScript `s.split(' ')`. -/
def jsSplitSpace (s : String) : List String := (splitCharsSpace s.data).map (fun l => ⟨l⟩)

/-- JavaScript `xs.join(sep)`. -/
def joinSep (sep : String) : List String → String
  | [] => ""
  | [x] => x
  | x :: xs => x ++ sep ++ joinSep sep xs

/-- JavaScript truthiness of a possibly-undefined string value:
`undefined` and the empty string are falsy. -/
def jsTruthyOpt : Option String → Bool
  | none => false
  | some s => !s.data.isEmpty

/-- Value of the digit list as a natural number (most significant first). -/
def digitsToNat (ds : List Char) : Nat := ds.foldl (fun n c => n * 10 + (c.toNat - 48)) 0

/-- Longest leading run of decimal digits, `none` when there is none. -/
def parseDigits (cs : List Char) : Option Nat :=
  let ds := cs.takeWhile Char.isDigit
  if ds.isEmpty then none else some (digitsToNat ds)

/-- JavaScript `parseInt(s, 10)`: skip leading whitespace, read an optional
sign and then the longest leading run of decimal digits, ignoring any
trailing garbage; `none` models `NaN` (no digits found). -/
def parseInt10 (s : String) : Option Int :=
  let cs := s.data.dropWhile Char.isWhitespace
  match cs with
  | '-' :: rest => (parseDigits rest).map (fun n => -(n : Int))
  | '+' :: rest => (parseDigits rest).map (fun n => (n : Int))
  | _ => (parseDigits cs).map (fun n => (n : Int))

/-- `id[0] === '#' ? id.slice(1) : id` — strip one leading hash mark. -/
def stripHash (s : String) : String :=
  match s.data with
  | '#' :: rest => ⟨rest⟩
  | _ => s

/-- `s[0] === '#'` in JavaScript (false on the empty string, where `s[0]`
is `undefined`). -/
def headIsHash (s : String) : Bool :=
  match s.data with
  | '#' :: _ => true
  | _ => false

/-- Insert a string into an already-sorted list (ascending code-unit order,
which agrees with JavaScript's default `sort()` on ASCII names). -/
def insertStr (x : String) : List String → List String
  | [] => [x]
  | y :: ys => if x ≤ y then x :: y :: ys else y :: insertStr x ys

/-- JavaScript `keys.sort()` for ASCII strings. -/
def sortStrings (l : List String) : List String := l.foldr insertStr []

/-! ## Data model: effects, errors, environment -/

/-- The error object delivered to `irc_client.on('error')`: `rawCommand` and
`stack` model possibly-absent properties. -/
structure IrcError where
  rawCommand : Option String
  stack : Option String
  msg : String
  deriving DecidableEq

/-- A synchronous JavaScript exception.  The only ones reachable in the
modelled code are `TypeError`s (property access / call on `undefined`, or
calling a non-function object). -/
inductive JsErr where
  | typeError
  deriving DecidableEq

/-- One observable side effect of a handler, in program order. -/
inductive Effect where
  | say (target text : String)
  | action (target text : String)
  | joinCh (channel : String)
  | partCh (channel : String)
  | logInfo (text : String)
  | logErrorObj (e : IrcError)
  | logErrorText (text : String)
  | apiStatusDelete (id : Int) (user : String)
  | apiStatusCreate (user project status : String)
  | apiUserUpdate (user what value who : String)
  | authNotice (source text : String)
  | checkUser (target : String)
  | checkUserArgs (args : List String)
  | pgQuery (q : String) (vals : List String)
  deriving DecidableEq

/-- Does the effect hit the remote status-tracking service? -/
def isApiCall : Effect → Bool
  | Effect.apiStatusDelete _ _ => true
  | Effect.apiStatusCreate _ _ _ => true
  | Effect.apiUserUpdate _ _ _ _ => true
  | _ => false

/-- Result of running a piece of JavaScript: the effects it performed, in
order, and the synchronous exception it raised, if any.  In every modelled
throwing path the throw happens before any further effect, so the effect
list is complete up to the throw. -/
abbrev JsResult := List Effect × Option JsErr

/-- Ambient process state read by the handlers: the channels the client is
in (`irc_client.chans`), `os.hostname()`, the index the `_.shuffle` call
effectively selects, the trust decision the authorization manager will
deliver for each nickname, and whether the optional Postgres client is
connected. -/
structure Env where
  chans : List String
  hostname : String
  shufflePick : Nat
  trusted : String → Bool
  pg : Bool

/-- A fixed sample environment used to instantiate universally quantified
theorems: no extra channels, trust granted to everyone, Postgres disabled. -/
def env0 : Env := ⟨[], "host", 0, fun _ => true, false⟩

/-! ## Argument parser and authorization gate (from utils.js, not under src/) -/

/-- Does the token begin with a double quote? -/
def startsWithQuote (t : String) : Bool :=
  match t.data with
  | '"' :: _ => true
  | _ => false

/-- Does the token end with a double quote? -/
def endsWithQuote (t : String) : Bool :=
  match t.data.getLast? with
  | some '"' => true
  | _ => false

/-- Remove one leading double quote, if present. -/
def dropFirstQuote : List Char → List Char
  | '"' :: cs => cs
  | cs => cs

/-- Remove one trailing double quote, if present. -/
def dropLastQuote (cs : List Char) : List Char :=
  match cs.getLast? with
  | some '"' => cs.dropLast
  | _ => cs

/-- Strip the surrounding double quotes of a re-joined quoted argument. -/
def stripQuotes (t : String) : String := ⟨dropLastQuote (dropFirstQuote t.data)⟩

/-- Worker for `parseArgs`: `pending` holds the tokens of a quoted group
whose closing quote has not been seen yet. -/
def parseArgsLoop (pending : List String) : List String → List String
  | [] => pending
  | t :: ts =>
    match pending with
    | [] =>
      if startsWithQuote t then
        if endsWithQuote t && decide (2 ≤ t.data.length) then
          stripQuotes t :: parseArgsLoop [] ts
        else parseArgsLoop [t] ts
      else t :: parseArgsLoop [] ts
    | _ =>
      if endsWithQuote t then
        stripQuotes (joinSep " " (pending ++ [t])) :: parseArgsLoop [] ts
      else parseArgsLoop (pending ++ [t]) ts

/-- Modelled from the spec: `utils.parseArgs` (utils.js is part of this
repository but is not under src/).  Spec 4.1: given whitespace-delimited
tokens, produce the argument list, re-joining tokens enclosed in double
quotes into a single argument; malformed quoting (an unclosed quote)
degrades gracefully to the literal tokens; plain tokens pass through
unchanged, preserving order. -/
def parseArgs (tokens : List String) : List String := parseArgsLoop [] tokens

/-- Modelled from the spec: `utils.ifAuthorized` (utils.js is part of this
repository but is not under src/).  Spec 4.4 step 5 and 7: ask the
authorization manager for a trust decision on `user`; run the wrapped
handler body only if the decision is positive, otherwise do nothing (the
silent-no-op default policy).  The eventual trust decision is supplied by
`env.trusted`; the probe to the authorization manager is recorded as a
`checkUser` effect. -/
def ifAuthorized (env : Env) (user channel : String) (f : Unit → JsResult) : JsResult :=
  if env.trusted user then
    let r := f ()
    (Effect.checkUser user :: r.1, r.2)
  else ([Effect.checkUser user], none)

/-! ## Command handlers (`commands` table of app.js) -/

/-- `commands.announce`: relay `args.join(' ')` into every other channel. -/
def announceFunc (env : Env) (user channel msg : String) (args : List String) : JsResult :=
  ((env.chans.filter (fun c => c != channel)).map (fun c => Effect.say c (joinSep " " args)), none)

/-- `commands.botsnack`: reply with the element `_.shuffle` puts first,
modelled by the `shufflePick` index of the environment. -/
def botsnackFunc (env : Env) (user channel msg : String) (args : List String) : JsResult :=
  let replies := ["Yummy!", "Thanks, " ++ user ++ "!", "My favorite!",
                  "Can I have another?", "Tasty!"]
  ([Effect.say channel (replies.getD (env.shufflePick % replies.length) "")], none)

/-- `commands.bye`: say goodbye, part the channel, and delete the channel
row when Postgres is connected. -/
def byeFunc (env : Env) (user channel msg : String) (args : List String) : JsResult :=
  ([Effect.say channel "Bye!", Effect.partCh channel] ++
    (if env.pg then [Effect.pgQuery "DELETE FROM channels WHERE id=$1" [channel]] else []), none)

/-- `commands.hostname`. -/
def hostnameFunc (env : Env) (user channel msg : String) (args : List String) : JsResult :=
  ([Effect.say channel ("I'm running on " ++ env.hostname)], none)

/-- `commands.chanlist`: list the joined channels, sorted. -/
def chanlistFunc (env : Env) (user channel msg : String) (args : List String) : JsResult :=
  ([Effect.say channel "I'm currently in:",
    Effect.say channel (joinSep ", " (sortStrings env.chans))], none)

/-- `commands.delete` (synchronous part): inside the authorization gate,
strip an optional leading `#` from `args[0]`, `parseInt` it and either
report an invalid id or issue the delete call.  With no argument at all,
`args[0]` is `undefined` and `id[0]` raises a `TypeError`. -/
def deleteFunc (env : Env) (user channel msg : String) (args : List String) : JsResult :=
  ifAuthorized env user channel (fun _ =>
    match args.head? with
    | none => ([], some JsErr.typeError)
    | some a0 =>
      match parseInt10 (stripHash a0) with
      | none => ([Effect.say channel ("\"" ++ a0 ++ "\" is not a valid status ID.")], none)
      | some n => ([Effect.apiStatusDelete n user], none))

/-- `commands.delete`, `response.once('ok')` callback. -/
def deleteOnOk (channel : String) (id : Int) : List Effect :=
  [Effect.say channel ("Ok, status #" ++ toString id ++ " is no more!")]

/-- The error message a generic (non-403) failure produces in the `delete`
and `update` handlers: the fixed failure sentence, extended with the remote
detail string exactly when `data.error` is truthy (present and non-empty). -/
def genericFailureMsg (d : Option String) : String :=
  match d with
  | some e =>
    if e.data.isEmpty then "I'm a failure, I couldn't do it."
    else "I'm a failure, I couldn't do it." ++ " The server said: \"" ++ e ++ "\""
  | none => "I'm a failure, I couldn't do it."

/-- `commands.delete`, `response.once('error')` callback.  The JavaScript
first runs `data = JSON.parse(data)`; the `data.error` field of the parsed
object is modelled directly as an optional string. -/
def deleteOnError (channel : String) (code : Int) (d : Option String) : List Effect :=
  if code = 403 then
    [Effect.say channel "You don't have permission to do that. Did you post that status?"]
  else [Effect.say channel (genericFailureMsg d)]

/-- `commands.goto`: `args[0]` is dereferenced without a guard, so an empty
argument list raises a `TypeError` before any effect; otherwise the channel
name is normalised to start with `#` and joined, and recorded in Postgres
when connected. -/
def gotoFunc (env : Env) (user channel msg : String) (args : List String) : JsResult :=
  match args.head? with
  | none => ([], some JsErr.typeError)
  | some a0 =>
    let join := if headIsHash a0 then a0 else "#" ++ a0
    ((if join.data.isEmpty then [] else [Effect.joinCh join]) ++
      (if env.pg then
        [Effect.pgQuery "INSERT INTO channels(id, invited_by) values($1, $2)" [join, user]]
       else []), none)

/-- Keys of the `commands` object literal, in insertion order (the
duplicate `bye` key keeps its first position with the last value, which is
textually identical). -/
def commandKeys : List String :=
  ["announce", "botsnack", "bye", "hostname", "chanlist", "delete", "goto",
   "help", "ping", "status", "trust", "update", "default"]

/-- The `help` field of each command descriptor (exact source strings,
including the stray trailing text of the `goto` help). -/
def cmdHelp : String → Option String
  | "announce" => some "Broadcast a message in all other channels."
  | "bye" => some "Ask the bot to leave the channel."
  | "hostname" => some "Ask the bot where it is."
  | "chanlist" => some "Get a list of channels that I am in."
  | "delete" => some "Delete a status by id."
  | "goto" => some "Tell the bot to join a channel.reg   "
  | "help" => some "This help message."
  | "ping" => some "A simple presence check."
  | "trust" => some "Check a user's authorization status."
  | "update" => some "Update the user's settings."
  | _ => none

/-- The `usage` field of each command descriptor (`ping` declares
`usage: undefined`, which behaves as absent). -/
def cmdUsage : String → Option String
  | "announce" => some "<message>"
  | "delete" => some "<id>"
  | "goto" => some "<channel>"
  | "status" => some "<project> status message"
  | "trust" => some "<user>"
  | "update" => some "<name|email|github_handle> <value> [<user>]"
  | _ => none

/-- `commands.help`: one line per command that has a help text, in sorted
key order, with the usage inserted when present. -/
def helpFunc (env : Env) (user channel msg : String) (args : List String) : JsResult :=
  (Effect.say channel "Available commands:" ::
    (sortStrings commandKeys).filterMap (fun c =>
      match cmdHelp c with
      | some h => some (Effect.say channel (joinSep " "
          (("!" ++ c) :: ((match cmdUsage c with | some u => [u] | none => []) ++ ["- " ++ h]))))
      | none => none), none)

/-- `commands.ping`. -/
def pingFunc (env : Env) (user channel msg : String) (args : List String) : JsResult :=
  ([Effect.say channel "Pong!"], none)

/-- `commands.status` (synchronous part): inside the authorization gate,
strip an optional `#` from the project and create the status from the
remaining arguments.  An empty argument list raises a `TypeError` at
`project[0]`. -/
def statusFunc (env : Env) (user channel msg : String) (args : List String) : JsResult :=
  ifAuthorized env user channel (fun _ =>
    match args.head? with
    | none => ([], some JsErr.typeError)
    | some a0 =>
      ([Effect.apiStatusCreate user (stripHash a0) (joinSep " " (args.drop 1))], none))

/-- `commands.status`, `response.once('ok')` callback. -/
def statusOnOk (channel : String) (id : Int) : List Effect :=
  [Effect.say channel ("Ok, submitted status #" ++ toString id)]

/-- `commands.status`, `response.once('error')` callback: one fixed reply,
whatever the failure code and payload. -/
def statusOnError (channel : String) (code : Int) (d : Option String) : List Effect :=
  [Effect.say channel "Uh oh, something went wrong."]

/-- `commands.trust` (synchronous part): probes the authorization manager
with the whole argument array. -/
def trustFunc (env : Env) (user channel msg : String) (args : List String) : JsResult :=
  ([Effect.checkUserArgs args], none)

/-- `commands.trust`, `'authorization'` callback (`'I trust ' + args`
coerces the array with a comma join). -/
def trustOnAuthorization (channel : String) (args : List String) (trust : Bool) : List Effect :=
  if trust then [Effect.say channel ("I trust " ++ joinSep "," args)]
  else [Effect.say channel ("I don't trust " ++ joinSep "," args)]

/-- `commands.update` (synchronous part): inside the authorization gate,
default the target user to the caller and issue the update only when both
the field name and the value are truthy. -/
def updateFunc (env : Env) (user channel msg : String) (args : List String) : JsResult :=
  ifAuthorized env user channel (fun _ =>
    let what := args[0]?
    let value := args[1]?
    let who0 := args[2]?
    let who := if jsTruthyOpt who0 then who0.getD "" else user
    if jsTruthyOpt what && jsTruthyOpt value then
      ([Effect.apiUserUpdate user (what.getD "") (value.getD "") who], none)
    else ([], none))

/-- `commands.update`, `response.once('ok')` callback. -/
def updateOnOk (channel : String) : List Effect :=
  [Effect.action channel "updates some stuff!"]

/-- `commands.update`, `response.once('error')` callback (same shape as the
delete one, with a shorter permission message and no JSON parse). -/
def updateOnError (channel : String) (code : Int) (d : Option String) : List Effect :=
  if code = 403 then
    [Effect.say channel "You don't have permission to do that."]
  else [Effect.say channel (genericFailureMsg d)]

/-- `commands.default`: the unrecognized-command reply. -/
def defaultFunc (env : Env) (user channel msg : String) (args : List String) : JsResult :=
  ([Effect.say channel (user ++ ": Huh? Try !help.")], none)

/-! ## Message dispatcher (`irc_client.on('message')`) -/

/-- The routing decision of the message handler: either the message is not
addressed to the bot and is ignored, or a named command is to be invoked
with the stripped message text and the parsed argument list. -/
inductive Route where
  | ignored
  | invoke (cmdName : String) (msg : String) (args : List String)
  deriving DecidableEq

/-- The anchored regex `^<escaped nick>[:,]\s*?(.*)$` of the message
handler: the capture (everything after the separator, since the lazy
`\s*?` matches nothing) when the message starts with the literal nickname
followed by `:` or `,`, and `none` otherwise. -/
def addressedMatch (nick msg : String) : Option String :=
  if jsStartsWith (nick ++ ":") msg then some (jsDropChars (nick.length + 1) msg)
  else if jsStartsWith (nick ++ ",") msg then some (jsDropChars (nick.length + 1) msg)
  else none

/-- Lines 152-180 of app.js up to the handler call: match "addressed to
me", trim, and classify into an explicit `!`-command (first
space-delimited token minus the marker, remaining tokens through
`parseArgs`), the reserved `botsnack` phrase (case-insensitive exact
match), or an implicit status post with `[channel, message]` as the
arguments. -/
def route (realNick msg channel : String) : Route :=
  match addressedMatch realNick msg with
  | none => Route.ignored
  | some raw =>
    let m := jsTrim raw
    if m.data.head? = some '!' then
      let toks := jsSplitSpace m
      Route.invoke (jsDropChars 1 (toks.headD "")) m (parseArgs (toks.drop 1))
    else if jsToLower m = "botsnack" then Route.invoke "botsnack" m []
    else Route.invoke "status" m [channel, m]

/-- The own properties of the `commands` object literal, mapped to their
handler functions. -/
def commandFunc : String → Option (Env → String → String → String → List String → JsResult)
  | "announce" => some announceFunc
  | "botsnack" => some botsnackFunc
  | "bye" => some byeFunc
  | "hostname" => some hostnameFunc
  | "chanlist" => some chanlistFunc
  | "delete" => some deleteFunc
  | "goto" => some gotoFunc
  | "help" => some helpFunc
  | "ping" => some pingFunc
  | "status" => some statusFunc
  | "trust" => some trustFunc
  | "update" => some updateFunc
  | "default" => some defaultFunc
  | _ => none

/-- The own property names of `Object.prototype` in Node.js: for these
names `commands[cmd_name]` finds a truthy inherited value that is not a
command descriptor. -/
def protoKeys : List String :=
  ["constructor", "hasOwnProperty", "isPrototypeOf", "propertyIsEnumerable",
   "toLocaleString", "toString", "valueOf", "__defineGetter__",
   "__defineSetter__", "__lookupGetter__", "__lookupSetter__", "__proto__"]

/-- `var cmd = commands[cmd_name] || commands['default']; cmd.func(...)`:
a registered command runs its handler; a name inherited from
`Object.prototype` is truthy, so the `||` keeps it, its `.func` is
`undefined`, and calling it raises a `TypeError`; any other name falls
back to the default descriptor. -/
def invokeCmd (env : Env) (name user channel msg : String) (args : List String) : JsResult :=
  match commandFunc name with
  | some f => f env user channel msg args
  | none =>
    if protoKeys.contains name then ([], some JsErr.typeError)
    else defaultFunc env user channel msg args

/-- The complete `irc_client.on('message')` handler: route, then invoke.
There is no try/catch anywhere in it, so the invoked handler's exception,
if any, is the handler's exception. -/
def dispatchMessage (env : Env) (realNick user channel msg : String) : JsResult :=
  match route realNick msg channel with
  | Route.ignored => ([], none)
  | Route.invoke name m args => invokeCmd env name user channel m args

/-! ## Other IRC event handlers -/

/-- `irc_client.on('notice')`: an undefined source is logged and replaced
by the empty string; the notice is forwarded to the authorization manager
exactly when the lowercased source is `nickserv`. -/
def noticeHandler (fromOpt : Option String) (text : String) : JsResult :=
  ((match fromOpt with
    | none => [Effect.logInfo ("Service Notice: " ++ text)]
    | some _ => []) ++
    (if jsToLower (fromOpt.getD "") = "nickserv"
     then [Effect.authNotice (jsToLower (fromOpt.getD "")) text]
     else []), none)

/-- `irc_client.on('kick')`: kicks of other users are ignored; when the bot
itself is kicked the handler logs and then evaluates
`commands['bye'](user, channel)` — but `commands['bye']` is the descriptor
object, not its `func` field, so calling it raises a `TypeError` before
any reply or part can happen. -/
def kickHandler (realNick channel user byNick : String) : JsResult :=
  if user = realNick then
    ([Effect.logInfo ("Kicked from " ++ channel ++ " by " ++ byNick ++ ".")],
     some JsErr.typeError)
  else ([], none)

/-- `irc_client.on('invite')`: log, then run the goto command directly. -/
def inviteHandler (env : Env) (channel fromNick : String) : JsResult :=
  let r := gotoFunc env fromNick channel "" [channel]
  (Effect.logInfo ("Invited to " ++ channel ++ " by " ++ fromNick ++ ".") :: r.1, r.2)

/-- `irc_client.on('error')`: the guard reads
`if (error.rawCommand !== '421') return;` — so the handler returns without
logging for every error except the 421 ones, and logs the error object
(and its stack when the property exists) only when `rawCommand` is
exactly `'421'`. -/
def errorHandler (e : IrcError) : List Effect :=
  if e.rawCommand = some "421" then
    Effect.logErrorObj e ::
      (match e.stack with
       | some st => [Effect.logErrorText st]
       | none => [])
  else []

/-! ## Helper lemmas -/

theorem strApp_data (a b : String) : (a ++ b).data = a.data ++ b.data := by
  cases a; cases b; rfl

theorem strLength_data (s : String) : s.length = s.data.length := by
  cases s; rfl

theorem dropPrefixCh_append (a b : List Char) : dropPrefixCh a (a ++ b) = some b := by
  induction a with
  | nil => rfl
  | cons c cs ih => simp [dropPrefixCh, ih]

/-- A message of the shape `nick ++ ":" ++ rest` always matches the
addressing regex, with `rest` as the capture. -/
theorem addressedMatch_colon (nick rest : String) :
    addressedMatch nick (nick ++ (":" ++ rest)) = some rest := by
  have hdata : (nick ++ (":" ++ rest)).data = (nick.data ++ [':']) ++ rest.data := by
    rw [strApp_data, strApp_data]
    simp
  have hpre : jsStartsWith (nick ++ ":") (nick ++ (":" ++ rest)) = true := by
    unfold jsStartsWith
    rw [hdata, strApp_data]
    have hc : (":" : String).data = [':'] := rfl
    rw [hc, dropPrefixCh_append]
    rfl
  have hlen : nick.length + 1 = (nick.data ++ [':']).length := by
    rw [strLength_data]
    simp
  unfold addressedMatch
  rw [hpre]
  simp only [if_pos rfl]
  unfold jsDropChars
  rw [hdata, hlen, List.drop_left]
  cases rest
  rfl

/-- Whatever the detail payload, the generic failure reply starts with the
fixed failure sentence (first character `I`). -/
theorem genericFailureMsg_starts_I (d : Option String) :
    (genericFailureMsg d).data.head? = some 'I' := by
  cases d with
  | none => rfl
  | some e =>
    obtain ⟨ed⟩ := e
    by_cases h : (String.mk ed).data.isEmpty = true
    · simp [genericFailureMsg, h]
    · simp only [genericFailureMsg, h, if_neg, Bool.false_eq_true, if_false]
      rfl

/-- Both permission-denied replies differ from every possible generic
failure reply (they start with `Y`, the generic one with `I`). -/
theorem permission_msgs_differ (d : Option String) :
    "You don't have permission to do that. Did you post that status?" ≠ genericFailureMsg d ∧
    "You don't have permission to do that." ≠ genericFailureMsg d := by
  have h := genericFailureMsg_starts_I d
  constructor <;> intro he <;> rw [← he] at h <;> exact absurd h (by decide)

/-! ## Claim theorems -/

/-- Claim C1: an inbound channel message that does not begin with the
bot's current network-assigned nickname followed by `:` or `,` is ignored
entirely: the dispatcher routes it nowhere, no handler is invoked, and no
effect (in particular no outbound reply) is produced. -/
theorem dispatch_ignores_unaddressed (env : Env) (nick user channel msg : String)
    (h1 : jsStartsWith (nick ++ ":") msg = false)
    (h2 : jsStartsWith (nick ++ ",") msg = false) :
    route nick msg channel = Route.ignored ∧
    dispatchMessage env nick user channel msg = ([], none) := by
  have hm : addressedMatch nick msg = none := by simp [addressedMatch, h1, h2]
  exact ⟨by simp [route, hm], by simp [dispatchMessage, route, hm]⟩

/-- Witness for C1: the channel chatter `hello everyone` is not addressed
to the bot `standup` and produces no route and no effects. -/
theorem dispatch_ignores_unaddressed_witness :
    route "standup" "hello everyone" "#chan" = Route.ignored ∧
    dispatchMessage env0 "standup" "alice" "#chan" "hello everyone" = ([], none) :=
  dispatch_ignores_unaddressed env0 "standup" "alice" "#chan" "hello everyone"
    (by decide) (by decide)

/-- Counterexample to claim C2: for the addressed message
`standup: !goto` the goto handler raises a synchronous `TypeError`, and
the dispatcher — which has no try/catch — neither logs nor swallows it: the
dispatch result carries the exception out of the message handler, contrary
to the claim that it is caught at the dispatcher boundary. -/
theorem goto_exception_escapes_cex :
    dispatchMessage env0 "standup" "alice" "#chan" "standup: !goto"
      = ([], some JsErr.typeError) ∧
    (dispatchMessage env0 "standup" "alice" "#chan" "standup: !goto").2 ≠ none :=
  ⟨rfl, by decide⟩

/-- Claim C2 as amended: a handler that raises synchronously has its
exception propagate out of the message dispatcher unchanged — there is no
catch at the dispatch boundary, nothing is logged, and no effect is
produced for that message.  Shown for the whole family of addressed
`!goto`-without-argument messages, over every nickname, user, channel and
environment. -/
theorem handler_exception_propagates (env : Env) (nick user channel : String) :
    dispatchMessage env nick user channel (nick ++ ": !goto") = ([], some JsErr.typeError) := by
  have hm : (nick ++ ": !goto") = nick ++ (":" ++ " !goto") := rfl
  have hroute : route nick (nick ++ (":" ++ " !goto")) channel
      = Route.invoke "goto" "!goto" [] := by
    unfold route
    rw [addressedMatch_colon]
    rfl
  rw [hm]
  unfold dispatchMessage
  rw [hroute]
  rfl

/-- Counterexample to claim C3: the `status` handler's failure callback
does not classify the failure — on code 403 it replies with the same fixed
text as on any other code, a text that is neither the permission-denied
wording nor a generic reply containing the remote detail string. -/
theorem status_generic_on_403_cex :
    statusOnError "#chan" 403 (some "boom")
      = [Effect.say "#chan" "Uh oh, something went wrong."] ∧
    statusOnError "#chan" 403 (some "boom") = statusOnError "#chan" 500 (some "boom") ∧
    "Uh oh, something went wrong."
      ≠ "You don't have permission to do that. Did you post that status?" ∧
    "Uh oh, something went wrong." ≠ genericFailureMsg (some "boom") :=
  ⟨rfl, rfl, by decide, by decide⟩

/-- Claim C3 as amended: the failure classification holds for the `delete`
and `update` handlers — code 403 yields a permission-denied reply whose
wording differs from every generic-failure reply, and any other code
yields the generic reply, which includes the remote detail string when one
is present — while the `status` handler replies with one fixed message for
every failure, without classification or detail. -/
theorem error_replies_classified (channel : String) (code : Int) (d : Option String) :
    (code = 403 →
       deleteOnError channel code d
         = [Effect.say channel
             "You don't have permission to do that. Did you post that status?"] ∧
       updateOnError channel code d
         = [Effect.say channel "You don't have permission to do that."]) ∧
    (code ≠ 403 →
       deleteOnError channel code d = [Effect.say channel (genericFailureMsg d)] ∧
       updateOnError channel code d = [Effect.say channel (genericFailureMsg d)]) ∧
    (∀ e : String, d = some e → e.data.isEmpty = false →
       genericFailureMsg d
         = "I'm a failure, I couldn't do it. The server said: \"" ++ e ++ "\"") ∧
    statusOnError channel code d = [Effect.say channel "Uh oh, something went wrong."] ∧
    "You don't have permission to do that. Did you post that status?"
      ≠ genericFailureMsg d ∧
    "You don't have permission to do that." ≠ genericFailureMsg d := by
  refine ⟨fun h => by simp [deleteOnError, updateOnError, h],
          fun h => by simp [deleteOnError, updateOnError, h],
          ?_, rfl, (permission_msgs_differ d).1, (permission_msgs_differ d).2⟩
  intro e he hne
  subst he
  obtain ⟨ed⟩ := e
  simp only [genericFailureMsg, hne, Bool.false_eq_true, if_false]
  rfl

/-- Witness for C3 (amended): concrete 403 and 500 failures of the delete
handler, the latter carrying the remote detail `boom` into the reply. -/
theorem error_replies_classified_witness :
    deleteOnError "#c" 403 (some "boom")
      = [Effect.say "#c" "You don't have permission to do that. Did you post that status?"] ∧
    deleteOnError "#c" 500 (some "boom")
      = [Effect.say "#c" "I'm a failure, I couldn't do it. The server said: \"boom\""] := by
  constructor
  · exact ((error_replies_classified "#c" 403 (some "boom")).1 rfl).1
  · have h := ((error_replies_classified "#c" 500 (some "boom")).2.1 (by decide)).1
    have h2 := (error_replies_classified "#c" 500 (some "boom")).2.2.1 "boom" rfl (by decide)
    rw [h2] at h
    exact h

/-- Claim C4: once the authorization gate lets the delete handler run, an
argument that (after stripping an optional leading `#`) does not parse as
a number makes the bot reply with a message quoting the original argument
followed by ` is not a valid status ID.`, and no call to the status
service is issued; the conjunct about `route` records that the dispatcher
indeed reaches the delete handler from the addressed message
`standup: !delete abc` with argument list `["abc"]`. -/
theorem delete_rejects_non_numeric_id (env : Env) (user channel msg w : String)
    (rest : List String)
    (htrust : env.trusted user = true)
    (hnan : parseInt10 (stripHash w) = none) :
    deleteFunc env user channel msg (w :: rest)
      = ([Effect.checkUser user,
          Effect.say channel ("\"" ++ w ++ "\" is not a valid status ID.")], none) ∧
    (deleteFunc env user channel msg (w :: rest)).1.all (fun e => !isApiCall e) = true ∧
    route "standup" "standup: !delete abc" "#chan"
      = Route.invoke "delete" "!delete abc" ["abc"] := by
  have h : deleteFunc env user channel msg (w :: rest)
      = ([Effect.checkUser user,
          Effect.say channel ("\"" ++ w ++ "\" is not a valid status ID.")], none) := by
    simp [deleteFunc, ifAuthorized, htrust, hnan]
  exact ⟨h, by rw [h]; simp [isApiCall], by decide⟩

/-- Witness for C4: the trusted user `alice` sends `!delete abc`; the only
effects are the authorization probe and the invalid-id reply. -/
theorem delete_rejects_non_numeric_id_witness :
    deleteFunc env0 "alice" "#chan" "!delete abc" ["abc"]
      = ([Effect.checkUser "alice",
          Effect.say "#chan" "\"abc\" is not a valid status ID."], none) :=
  (delete_rejects_non_numeric_id env0 "alice" "#chan" "!delete abc" "abc" [] rfl (by decide)).1

/-- Claim C5, evaluated at its failing input: an unregistered command name
such as `bogus` does degrade to the default descriptor and its
unrecognized-command reply, but a command name that is an inherited
`Object.prototype` property (`toString`, `hasOwnProperty`, ...) makes
`commands[cmd_name] || commands['default']` keep the inherited truthy
value, whose `func` field is undefined — invoking it raises a `TypeError`
instead of reaching the default descriptor, so command resolution can
fail, contrary to the claim. -/
theorem command_resolution_proto_bug :
    dispatchMessage env0 "standup" "alice" "#chan" "standup: !bogus"
      = ([Effect.say "#chan" "alice: Huh? Try !help."], none) ∧
    dispatchMessage env0 "standup" "alice" "#chan" "standup: !toString"
      = ([], some JsErr.typeError) ∧
    dispatchMessage env0 "standup" "alice" "#chan" "standup: !hasOwnProperty"
      = ([], some JsErr.typeError) :=
  ⟨rfl, rfl, rfl⟩

/-- Claim C6: an addressed message whose stripped text does not start with
the `!` marker routes to the botsnack command (with empty arguments)
exactly when the lowercased text equals `botsnack`, and to the status
command with arguments `[channel, message]` otherwise. -/
theorem nonbang_routes_botsnack_or_status (nick msg channel raw : String)
    (hmatch : addressedMatch nick msg = some raw)
    (hnobang : (jsTrim raw).data.head? ≠ some '!') :
    (jsToLower (jsTrim raw) = "botsnack" →
       route nick msg channel = Route.invoke "botsnack" (jsTrim raw) []) ∧
    (jsToLower (jsTrim raw) ≠ "botsnack" →
       route nick msg channel = Route.invoke "status" (jsTrim raw) [channel, jsTrim raw]) := by
  constructor <;> intro h <;> simp [route, hmatch, hnobang, h]

/-- Witness for C6: `standup: hello world` becomes an implicit status post
with `["#chan", "hello world"]`; `standup, Botsnack` (case-insensitive)
routes to the botsnack command. -/
theorem nonbang_routes_botsnack_or_status_witness :
    route "standup" "standup: hello world" "#chan"
      = Route.invoke "status" "hello world" ["#chan", "hello world"] ∧
    route "standup" "standup, Botsnack" "#chan" = Route.invoke "botsnack" "Botsnack" [] := by
  constructor
  · exact (nonbang_routes_botsnack_or_status "standup" "standup: hello world" "#chan"
      " hello world" (by decide) (by decide)).2 (by decide)
  · exact (nonbang_routes_botsnack_or_status "standup" "standup, Botsnack" "#chan"
      " Botsnack" (by decide) (by decide)).1 (by decide)

/-- Claim C7, evaluated at its failing input: when the bot itself
(`standup`) is kicked, the handler logs the kick and then calls
`commands['bye']` — the descriptor object, not its `func` field — so a
`TypeError` is raised and neither the `Bye!` reply nor the channel part
ever happens; kicks of other users are ignored, as claimed. -/
theorem kick_invokes_descriptor_bug :
    kickHandler "standup" "#town" "standup" "op"
      = ([Effect.logInfo "Kicked from #town by op."], some JsErr.typeError) ∧
    kickHandler "standup" "#town" "alice" "op" = ([], none) :=
  ⟨by decide, by decide⟩

/-- Claim C8, evaluated at its failing input: the guard
`if (error.rawCommand !== '421') return;` is inverted with respect to the
comment above it — an error with rawCommand `500` (or with no rawCommand
at all) is dropped without logging, and only the harmless 421 errors are
logged (with their stack when present). -/
theorem error_logging_inverted_bug :
    errorHandler ⟨some "500", some "stack trace", "connection reset"⟩ = [] ∧
    errorHandler ⟨none, some "stack trace", "connection reset"⟩ = [] ∧
    errorHandler ⟨some "421", some "stack trace", "unknown command"⟩
      = [Effect.logErrorObj ⟨some "421", some "stack trace", "unknown command"⟩,
         Effect.logErrorText "stack trace"] :=
  ⟨by decide, by decide, by decide⟩

/-- Claim C9: the goto handler invoked with an empty argument list
dereferences `args[0]` without a guard (`join[0]` on `undefined`) and
raises a synchronous `TypeError` before any effect: no channel is joined
and no reply is sent, in every environment. -/
theorem goto_empty_args_throws (env : Env) (user channel msg : String) :
    gotoFunc env user channel msg [] = ([], some JsErr.typeError) := rfl

/-- Claim C10: the notice handler never raises; a notice is forwarded to
the authorization manager exactly when its source, lowercased, is
`nickserv`; a notice with an undefined source is logged and treated as
having the empty source (hence not forwarded); all other notices produce
nothing. -/
theorem notice_forwards_only_nickserv (fromOpt : Option String) (text : String) :
    (noticeHandler fromOpt text).2 = none ∧
    ((∃ s, fromOpt = some s ∧ jsToLower s = "nickserv") ↔
      Effect.authNotice "nickserv" text ∈ (noticeHandler fromOpt text).1) ∧
    (fromOpt = none →
      noticeHandler fromOpt text = ([Effect.logInfo ("Service Notice: " ++ text)], none)) := by
  refine ⟨rfl, ?_, ?_⟩
  · cases fromOpt with
    | none =>
      simp [noticeHandler,
        if_neg (show ¬jsToLower (Option.getD none "") = "nickserv" by decide)]
      decide
    | some s =>
      by_cases h : jsToLower s = "nickserv"
      · simp [noticeHandler, h]
      · simp [noticeHandler, h]
  · intro h
    subst h
    simp [noticeHandler,
      if_neg (show ¬jsToLower (Option.getD none "") = "nickserv" by decide)]
    decide

/-- Witness for C10: a notice from `NickServ` (mixed case) is forwarded;
a notice with an undefined source is only logged. -/
theorem notice_forwards_only_nickserv_witness :
    Effect.authNotice "nickserv" "acc alice 3"
      ∈ (noticeHandler (some "NickServ") "acc alice 3").1 ∧
    noticeHandler none "lost notice" = ([Effect.logInfo "Service Notice: lost notice"], none) := by
  constructor
  · exact (notice_forwards_only_nickserv (some "NickServ") "acc alice 3").2.1.mp
      ⟨"NickServ", rfl, by decide⟩
  · exact (notice_forwards_only_nickserv none "lost notice").2.2 rfl
